import Mathlib

/-!
Verification development for the spicedb dispatch layer and the v0 watch
service.  The watch service (`internal/services/v0/watch.go`) is embedded
directly from its Go source.  The cluster dispatcher, dispatch-expression
language and local dispatcher are embedded from the behaviour fixed by the
specification (their Go sources are exercised only through
`internal/dispatch/remote/cluster_test.go`).
-/

namespace SpiceDB

/-! ## Core protocol data types (pkg/proto/core/v1, pkg/proto/dispatch/v1) -/

/-- Embeds `core.v1.ObjectAndRelation`: a namespaced object id plus a relation.
The Go field `Namespace` is written `ns` here because `namespace` is reserved. -/
structure ObjectAndRelation where
  ns : String
  objectId : String
  relation : String
deriving DecidableEq, Repr

/-- Embeds `core.v1.RelationReference`: a namespace plus a relation name. -/
structure RelationReference where
  ns : String
  relation : String
deriving DecidableEq, Repr

/-- Embeds `core.v1.RelationTuple` with the single field the watch filter
reads: its `ObjectAndRelation`. -/
structure RelationTuple where
  objectAndRelation : ObjectAndRelation
deriving DecidableEq, Repr

/-- Embeds `core.v1.RelationTupleUpdate` with the single field the watch
filter reads: the tuple. -/
structure RelationTupleUpdate where
  tuple : RelationTuple
deriving DecidableEq, Repr

/-! ## v0 watch service (src/internal/services/v0/watch.go) -/

/-- Embeds `v0.Zookie` (a revision token). -/
structure Zookie where
  token : String
deriving DecidableEq, Repr

/-- Embeds `v0.WatchRequest`: the namespaces to watch and an optional start
revision token. -/
structure WatchRequest where
  namespaces : List String
  startRevision : Option Zookie
deriving DecidableEq, Repr

/-- One batch delivered on the datastore watch channel
(`datastore.RevisionChanges`): a change list and the revision that produced
it.  Revisions (`decimal.Decimal`) are modelled as integers; the Go zero
value `decimal.Decimal{}` is the integer `0`. -/
structure WatchChange where
  changes : List RelationTupleUpdate
  revision : Int
deriving DecidableEq, Repr

/-- Embeds `v0.WatchResponse`: the updates sent to the client and the end
revision (as the integer underlying the zookie). -/
structure WatchResponse where
  updates : List RelationTupleUpdate
  endRevision : Int
deriving DecidableEq, Repr

/-- gRPC status codes used by `watch.go`. -/
inductive Code
  | invalidArgument
  | failedPrecondition
  | unavailable
  | canceled
  | resourceExhausted
  | internal
deriving DecidableEq, Repr

/-- A gRPC status error as built by `status.Errorf`. -/
structure GrpcStatus where
  code : Code
  msg : String
deriving DecidableEq, Repr

/-- Embeds the `namespaceFilter` struct of watch.go.  The Go field is a
`map[string]struct{}` built from the request's namespace list; membership in
the map coincides with membership in that list. -/
structure namespaceFilter where
  namespaces : List String
deriving DecidableEq, Repr

/-- Embeds `namespaceFilter.filterUpdates` (watch.go lines 94-104): keep the
candidates whose tuple namespace is in the filter. -/
def filterUpdates (nf : namespaceFilter) (candidates : List RelationTupleUpdate) :
    List RelationTupleUpdate :=
  candidates.filter (fun update => nf.namespaces.contains update.tuple.objectAndRelation.ns)

/-- Embeds the body of the update branch of the watch loop (watch.go lines
65-76): filter the batch; when the filtered list is non-empty send a
`WatchResponse` carrying the batch's whole `Changes` list (not the filtered
one) and the batch's revision; otherwise send nothing. -/
def watchBatchResponse (nf : namespaceFilter) (update : WatchChange) : Option WatchResponse :=
  let filtered := filterUpdates nf update.changes
  if filtered.length > 0 then
    some { updates := update.changes, endRevision := update.revision }
  else
    none

/-- The condition guarding the decode branch of watch.go line 47:
`req.StartRevision != nil && req.StartRevision.Token != ""`. -/
def hasStartToken (req : WatchRequest) : Bool :=
  match req.startRevision with
  | some z => z.token ≠ ""
  | none => false

/-- Embeds watch.go lines 46-60: select the revision the datastore watch is
opened at.  `decodeRevision` stands for `zookie.DecodeRevision` and `dsRev`
for `ds.Revision`; both return the zero revision alongside an error, as their
Go implementations do.  In both error branches the Go code calls
`status.Errorf` but discards the constructed error, so the local
`afterRevision` keeps the zero value and execution continues. -/
def watchAfterRevision (decodeRevision : Zookie → Except String Int)
    (dsRev : Except String Int) (req : WatchRequest) : Int :=
  if hasStartToken req then
    match req.startRevision with
    | some z =>
      match decodeRevision z with
      | .ok d => d
      | .error _ => 0
    | none => 0
  else
    match dsRev with
    | .ok d => d
    | .error _ => 0

/-- The terminal error delivered on the datastore watch error channel. -/
inductive WatchTermErr
  | watchCanceled (msg : String)
  | disconnected (msg : String)
  | other (msg : String)
deriving DecidableEq, Repr

/-- Embeds the error branch of the watch loop (watch.go lines 77-85). -/
def mapTermErr : WatchTermErr → GrpcStatus
  | .watchCanceled m => { code := Code.canceled, msg := "watch canceled by user: " ++ m }
  | .disconnected m => { code := Code.resourceExhausted, msg := "watch disconnected: " ++ m }
  | .other m => { code := Code.internal, msg := "watch error: " ++ m }

/-- The environment a single `Watch` call runs in: the outcomes of the
external calls it makes (`req.Validate`, `nsm.CheckNamespaceAndRelation`,
`zookie.DecodeRevision`, `ds.Revision`) and the traffic on the two channels
returned by `ds.Watch` (the batches delivered in order, then the terminal
error; the Go loop can only exit through the error channel or a failed
send, and sends are modelled as succeeding). -/
structure WatchWorld where
  validateErr : Option String
  nsCheckErr : String → Option String
  decodeRevision : Zookie → Except String Int
  dsRevision : Except String Int
  batches : List WatchChange
  termErr : WatchTermErr

/-- First namespace-check error over the request's namespaces, mirroring the
loop of watch.go lines 36-43 which returns on the first failure. -/
def findNsErr (f : String → Option String) : List String → Option String
  | [] => none
  | n :: rest =>
    match f n with
    | some e => some e
    | none => findNsErr f rest

/-- What a `Watch` call did: the revision the datastore watch was opened at
(`none` when the call returned before opening it), the responses sent on the
stream, and the status error the call returned. -/
structure WatchOutcome where
  watchOpenedAt : Option Int
  sent : List WatchResponse
  result : GrpcStatus
deriving DecidableEq, Repr

/-- Embeds `watchServer.Watch` (watch.go lines 29-88) over a `WatchWorld`:
validate, check each requested namespace, select the start revision, open the
datastore watch and run the select loop until the error channel fires. -/
def Watch (w : WatchWorld) (req : WatchRequest) : WatchOutcome :=
  match w.validateErr with
  | some e =>
    { watchOpenedAt := none, sent := [],
      result := { code := Code.invalidArgument, msg := "invalid argument: " ++ e } }
  | none =>
    match findNsErr w.nsCheckErr req.namespaces with
    | some e =>
      { watchOpenedAt := none, sent := [],
        result := { code := Code.failedPrecondition, msg := "invalid namespace: " ++ e } }
    | none =>
      let nf : namespaceFilter := { namespaces := req.namespaces }
      let afterRevision := watchAfterRevision w.decodeRevision w.dsRevision req
      { watchOpenedAt := some afterRevision,
        sent := w.batches.filterMap (watchBatchResponse nf),
        result := mapTermErr w.termErr }

/-- One of the two failure modes of the revision-selection prelude of
watch.go lines 46-60: a non-empty start token fails to decode, or no token
was given and reading the datastore's current revision fails. -/
def watchRevisionFailed (w : WatchWorld) (req : WatchRequest) : Prop :=
  (∃ z e, req.startRevision = some z ∧ z.token ≠ "" ∧ w.decodeRevision z = .error e)
  ∨ (hasStartToken req = false ∧ ∃ e, w.dsRevision = .error e)

theorem filterUpdates_pos_iff (nf : namespaceFilter) (l : List RelationTupleUpdate) :
    (filterUpdates nf l).length > 0
      ↔ ∃ c ∈ l, c.tuple.objectAndRelation.ns ∈ nf.namespaces := by
  rw [filterUpdates, gt_iff_lt, List.length_pos_iff_exists_mem]
  constructor
  · rintro ⟨c, hc⟩
    rw [List.mem_filter] at hc
    exact ⟨c, hc.1, by simpa using hc.2⟩
  · rintro ⟨c, hcl, hcns⟩
    exact ⟨c, List.mem_filter.mpr ⟨hcl, by simpa using hcns⟩⟩

/-- C9: the v0 watch server sends a `WatchResponse` for a batch exactly when
some change in the batch has a namespace in the requested set, and every
response it sends carries the batch's entire unfiltered change list together
with the batch's revision. -/
theorem watch_filter_send (w : WatchWorld) (req : WatchRequest)
    (hv : w.validateErr = none)
    (hns : findNsErr w.nsCheckErr req.namespaces = none) :
    (Watch w req).sent
      = w.batches.filterMap (watchBatchResponse { namespaces := req.namespaces })
    ∧ (∀ (nf : namespaceFilter) (u : WatchChange),
        ((watchBatchResponse nf u).isSome = true
          ↔ ∃ c ∈ u.changes, c.tuple.objectAndRelation.ns ∈ nf.namespaces)
        ∧ ∀ r, watchBatchResponse nf u = some r →
            r.updates = u.changes ∧ r.endRevision = u.revision) := by
  refine ⟨by simp [Watch, hv, hns], fun nf u => ⟨?_, ?_⟩⟩
  · rw [← filterUpdates_pos_iff nf u.changes]
    unfold watchBatchResponse
    by_cases h : (filterUpdates nf u.changes).length > 0 <;> simp [h]
  · intro r hr
    unfold watchBatchResponse at hr
    by_cases h : (filterUpdates nf u.changes).length > 0 <;> simp [h] at hr
    exact ⟨hr.symm ▸ rfl, hr.symm ▸ rfl⟩

/-- Concrete world for exercising the watch theorems. -/
def c9Batch1 : WatchChange :=
  { changes := [{ tuple := { objectAndRelation := { ns := "document", objectId := "a", relation := "viewer" } } },
                { tuple := { objectAndRelation := { ns := "folder", objectId := "b", relation := "viewer" } } }],
    revision := 3 }

/-- A batch none of whose changes is in the watched namespace set. -/
def c9Batch2 : WatchChange :=
  { changes := [{ tuple := { objectAndRelation := { ns := "folder", objectId := "c", relation := "viewer" } } }],
    revision := 4 }

/-- A request watching only the namespace of the first batch's first change. -/
def c9Req : WatchRequest := { namespaces := ["document"], startRevision := none }

/-- A world where every external call succeeds and two batches arrive. -/
def c9World : WatchWorld :=
  { validateErr := none, nsCheckErr := fun _ => none,
    decodeRevision := fun _ => .ok 7, dsRevision := .ok 5,
    batches := [c9Batch1, c9Batch2], termErr := .watchCanceled "client gone" }

theorem watch_filter_send_witness :
    (Watch c9World c9Req).sent = [{ updates := c9Batch1.changes, endRevision := 3 }] := by
  have h := watch_filter_send c9World c9Req rfl rfl
  rw [h.1]
  decide

/-- C10: a failed decode of a non-empty start token, and a failed read of the
datastore's current revision when no token is given, do not make `Watch`
return: the constructed status error is discarded and the watch is opened at
the zero revision, after which the loop runs normally. -/
theorem watch_revision_errors_discarded (w : WatchWorld) (req : WatchRequest)
    (hv : w.validateErr = none)
    (hns : findNsErr w.nsCheckErr req.namespaces = none)
    (hf : watchRevisionFailed w req) :
    (Watch w req).watchOpenedAt = some 0
    ∧ (Watch w req).sent
        = w.batches.filterMap (watchBatchResponse { namespaces := req.namespaces })
    ∧ (Watch w req).result = mapTermErr w.termErr := by
  have hrev : watchAfterRevision w.decodeRevision w.dsRevision req = 0 := by
    rcases hf with ⟨z, e, hsr, htok, hdec⟩ | ⟨hnot, e, herr⟩
    · have hhas : hasStartToken req = true := by simp [hasStartToken, hsr, htok]
      simp [watchAfterRevision, hhas, hsr, hdec]
    · simp [watchAfterRevision, hnot, herr]
  refine ⟨?_, ?_, ?_⟩ <;> simp [Watch, hv, hns, hrev]

/-- A world whose start-token decode fails. -/
def c10World : WatchWorld :=
  { validateErr := none, nsCheckErr := fun _ => none,
    decodeRevision := fun _ => .error "bad token", dsRevision := .ok 5,
    batches := [c9Batch2], termErr := .disconnected "lost" }

/-- A request carrying a non-empty (undecodable) start token. -/
def c10Req : WatchRequest :=
  { namespaces := ["document"], startRevision := some { token := "garbage" } }

theorem watch_revision_errors_discarded_witness :
    (Watch c10World c10Req).watchOpenedAt = some 0
    ∧ (Watch c10World c10Req).sent = []
    ∧ (Watch c10World c10Req).result
        = { code := Code.resourceExhausted, msg := "watch disconnected: lost" } := by
  have h := watch_revision_errors_discarded c10World c10Req rfl rfl
    (Or.inl ⟨{ token := "garbage" }, "bad token", rfl, by decide, rfl⟩)
  exact ⟨h.1, by rw [h.2.1]; decide, by rw [h.2.2]; decide⟩

/-! ## Dispatch protocol data types (pkg/proto/dispatch/v1)

The cluster dispatcher's Go source (`internal/dispatch/remote/cluster.go`)
is not part of this tree; the definitions below are modelled from the
specification's data model (spec sections 3 and 6) and exercised against the
request/response values of `cluster_test.go`. -/

/-- Embeds `dispatch.v1.ResolverMeta`. -/
structure ResolverMeta where
  atRevision : String
  depthRemaining : Nat
deriving DecidableEq, Repr

/-- Embeds `dispatch.v1.ResponseMeta`. -/
structure ResponseMeta where
  dispatchCount : Nat
  cachedDispatchCount : Nat
  depthRequired : Nat
deriving DecidableEq, Repr

/-- Embeds `dispatch.v1.Cursor`: ordered string sections plus a dispatch
version. -/
structure Cursor where
  sections : List String
  dispatchVersion : Nat
deriving DecidableEq, Repr

/-- Embeds `dispatch.v1.DispatchCheckRequest` (the fields the dispatch layer
and the expression language read). -/
structure DispatchCheckRequest where
  resourceRelation : RelationReference
  resourceIds : List String
  metadata : ResolverMeta
  subject : ObjectAndRelation
deriving DecidableEq, Repr

/-- Embeds `dispatch.v1.DispatchCheckResponse` (metadata only; the result
map is not read by the dispatch layer). -/
structure DispatchCheckResponse where
  metadata : ResponseMeta
deriving DecidableEq, Repr

/-- Embeds `dispatch.v1.DispatchLookupSubjectsRequest` (the dispatch-layer
fields). -/
structure DispatchLookupSubjectsRequest where
  resourceRelation : RelationReference
  resourceIds : List String
  metadata : ResolverMeta
  subjectRelation : RelationReference
deriving DecidableEq, Repr

/-- Embeds `dispatch.v1.DispatchLookupSubjectsResponse` (metadata only). -/
structure DispatchLookupSubjectsResponse where
  metadata : ResponseMeta
deriving DecidableEq, Repr

/-- Embeds `dispatch.v1.DispatchLookupResources2Request` (the dispatch-layer
fields). -/
structure DispatchLookupResources2Request where
  resourceRelation : RelationReference
  subjectRelation : RelationReference
  subjectIds : List String
  terminalSubject : ObjectAndRelation
  metadata : ResolverMeta
  optionalCursor : Option Cursor
deriving DecidableEq, Repr

/-- Embeds `dispatch.v1.DispatchLookupResources2Response`: a possible
resource id, response metadata and the continuation cursor. -/
structure DispatchLookupResources2Response where
  resourceId : String
  metadata : ResponseMeta
  afterResponseCursor : Cursor
deriving DecidableEq, Repr

/-- The dispatch-boundary error taxonomy (spec section 4.7). `peer` carries
an error surfaced by a primary or secondary peer. -/
inductive DispatchErr
  | deadlineExceeded (msg : String)
  | depthExceeded
  | unknownSecondary (name : String)
  | peer (msg : String)
deriving DecidableEq, Repr

/-- Modelled from the spec: the dispatch count adjustment observable in
`cluster_test.go` (scenario rows 2-5 of spec section 8).  The remote
dispatch performed by the cluster dispatcher itself counts as a dispatch, so
a response forwarded by it always reports at least one; a peer that already
reports its own count keeps it. -/
def adjustMetadataForDispatch (m : ResponseMeta) : ResponseMeta :=
  { m with dispatchCount := max m.dispatchCount 1 }

/-- Look a secondary name up in the `secondaries` map of the cluster
dispatcher configuration. -/
def lookupSecondary {α : Type} (secs : List (String × α)) (n : String) : Option α :=
  (secs.find? (fun p => p.1 = n)).map (fun p => p.2)

instance {ε α : Type} [DecidableEq ε] [DecidableEq α] : DecidableEq (Except ε α) := fun a b =>
  match a, b with
  | .ok x, .ok y =>
    if h : x = y then .isTrue (congrArg Except.ok h)
    else .isFalse (fun hc => h (Except.ok.inj hc))
  | .error x, .error y =>
    if h : x = y then .isTrue (congrArg Except.error h)
    else .isFalse (fun hc => h (Except.error.inj hc))
  | .ok _, .error _ => .isFalse (fun hc => Except.noConfusion hc)
  | .error _, .ok _ => .isFalse (fun hc => Except.noConfusion hc)

/-! ## Cluster dispatcher: DispatchCheck (spec section 4.5, unary procedure) -/

/-- A peer's behaviour for a single unary check call: how long it takes to
answer and what it answers (a response or a transport/peer error). -/
structure CheckProducerSpec where
  latency : Nat
  result : Except String DispatchCheckResponse
deriving DecidableEq, Repr

/-- Whether a peer produces a successful answer. -/
def producerOk (p : CheckProducerSpec) : Bool :=
  match p.result with
  | .ok _ => true
  | .error _ => false

/-- The cluster dispatcher configuration visible to a check call: the
overall timeout, the primary peer and the `secondaries` map. -/
structure CheckWorld where
  timeout : Nat
  primary : CheckProducerSpec
  secondaries : List (String × CheckProducerSpec)

/-- Modelled from the spec (section 4.5 step 2): filter the expression's
name list against the `secondaries` map, silently dropping unknown names. -/
def validSecondaries {α : Type} (secs : List (String × α)) (names : List String) :
    List (String × α) :=
  names.filterMap (fun n => (lookupSecondary secs n).map (fun s => (n, s)))

/-- The producers started for a check call: the primary (labelled `none`)
followed by each valid secondary (labelled by name). -/
def checkProducers (w : CheckWorld) (exprNames : List String) :
    List (Option String × CheckProducerSpec) :=
  (none, w.primary) :: (validSecondaries w.secondaries exprNames).map (fun p => (some p.1, p.2))

/-- A producer answers successfully before the overall deadline. -/
def okWithin (timeout : Nat) (p : CheckProducerSpec) : Bool :=
  decide (p.latency < timeout) && producerOk p

/-- The producer whose answer arrives first (least latency; earlier list
position breaks ties, so ties favour the primary). -/
def minLatencyProducer :
    List (Option String × CheckProducerSpec) → Option (Option String × CheckProducerSpec)
  | [] => none
  | p :: ps =>
    match minLatencyProducer ps with
    | none => some p
    | some q => if p.2.latency ≤ q.2.latency then some p else some q

/-- What a check dispatch did: its result, whether the primary was dialled,
which secondaries were started, and which started producers were cancelled
after the winner was chosen. -/
structure CheckOutcome where
  result : Except DispatchErr DispatchCheckResponse
  primaryStarted : Bool
  startedSecondaries : List String
  cancelled : List (Option String)
deriving DecidableEq, Repr

/-- Modelled from the spec: the per-operation check procedure of section 4.5
(steps 1-6).  Depth is validated first (section 3 invariants); the primary
and every valid secondary start in parallel; the first successful response
before the deadline wins and the remaining producers are cancelled; with no
winner the primary's error (or the overall deadline) is surfaced. -/
def dispatchCheck (w : CheckWorld) (exprNames : List String) (req : DispatchCheckRequest) :
    CheckOutcome :=
  if req.metadata.depthRemaining = 0 then
    { result := .error .depthExceeded, primaryStarted := false,
      startedSecondaries := [], cancelled := [] }
  else
    let producers := checkProducers w exprNames
    let eligible := producers.filter (fun p => okWithin w.timeout p.2)
    match minLatencyProducer eligible with
    | some (lbl, spec) =>
      { result :=
          (match spec.result with
           | .ok r => .ok { r with metadata := adjustMetadataForDispatch r.metadata }
           | .error e => .error (.peer e)),
        primaryStarted := true,
        startedSecondaries := (validSecondaries w.secondaries exprNames).map (fun p => p.1),
        cancelled := (producers.map (fun p => p.1)).filter (fun l => l ≠ lbl) }
    | none =>
      { result :=
          if w.primary.latency < w.timeout then
            (match w.primary.result with
             | .ok r => .ok { r with metadata := adjustMetadataForDispatch r.metadata }
             | .error e => .error (.peer e))
          else .error (.deadlineExceeded "context deadline exceeded"),
        primaryStarted := true,
        startedSecondaries := (validSecondaries w.secondaries exprNames).map (fun p => p.1),
        cancelled := [] }

/-! ## Cluster dispatcher: DispatchLookupSubjects (streaming, primary only) -/

/-- The primary's behaviour for a lookup-subjects stream: latency to the
terminal response and the responses streamed. -/
structure LSProducerSpec where
  latency : Nat
  responses : List DispatchLookupSubjectsResponse
deriving DecidableEq, Repr

/-- Configuration for a lookup-subjects dispatch. -/
structure LSWorld where
  timeout : Nat
  primary : LSProducerSpec
deriving DecidableEq, Repr

/-- Outcome of a lookup-subjects dispatch: terminal status and the responses
forwarded to the caller's stream. -/
structure LSOutcome where
  result : Except DispatchErr Unit
  sent : List DispatchLookupSubjectsResponse
deriving DecidableEq, Repr

/-- Modelled from the spec: the streaming dispatch of lookup-subjects under
the overall timeout (spec sections 4.5 and 8, scenario rows 1-2).  Depth is
validated first; a primary slower than the timeout yields a
deadline-exceeded error, otherwise their responses are forwarded with the
dispatch-count adjustment. -/
def dispatchLookupSubjects (w : LSWorld) (req : DispatchLookupSubjectsRequest) : LSOutcome :=
  if req.metadata.depthRemaining = 0 then
    { result := .error .depthExceeded, sent := [] }
  else if w.primary.latency < w.timeout then
    { result := .ok (),
      sent := w.primary.responses.map
        (fun r => { r with metadata := adjustMetadataForDispatch r.metadata }) }
  else
    { result := .error (.deadlineExceeded "context deadline exceeded"), sent := [] }

/-! ## Cluster dispatcher: DispatchLookupResources2 (streaming with cursor) -/

/-- A peer's behaviour for a lookup-resources stream: the responses it emits
in order, then an optional error after the last of them (an error with no
responses is an error before any response). -/
structure LRProducerSpec where
  responses : List DispatchLookupResources2Response
  err : Option String
deriving DecidableEq, Repr

/-- Configuration and schedule for a lookup-resources dispatch: the primary,
the `secondaries` map, and the race arbiter — whether the default
secondary's first response reaches the rendezvous channel before the
primary's (spec section 4.5, tie-break note). -/
structure LRWorld where
  primary : LRProducerSpec
  secondaries : List (String × LRProducerSpec)
  secondaryFirst : Bool

/-- The secondary-prefix routing tag of cursor sections, the literal ASCII
string of spec section 6 (named `secondaryCursorPrefix` in the source). -/
def secondaryCursorMarker : String := "$s:"

/-- Strip the secondary routing tag from a cursor section: the Go
`strings.HasPrefix` test followed by slicing off the tag. -/
def stripMarker (s : String) : Option String :=
  if s.data.take 3 = secondaryCursorMarker.data then some (String.mk (s.data.drop 3))
  else none

/-- The secondary a request's cursor pins it to, if any: the cursor paired
with the name carried by the routing tag on its first section (spec section
4.5 step 2). -/
def pinnedOf : Option Cursor → Option (Cursor × String)
  | none => none
  | some cur =>
    match cur.sections with
    | [] => none
    | s0 :: _ => (stripMarker s0).map (fun name => (cur, name))

/-- The cursor forwarded to a pinned secondary: the routing-tag section is
removed, the rest is evaluator-internal state owned by that peer. -/
def strippedCursor (cur : Cursor) : Cursor :=
  { sections := cur.sections.tail, dispatchVersion := cur.dispatchVersion }

/-- Annotate a response from secondary `name`: prepend the routing tag to
its continuation cursor (spec section 4.5 step 6). -/
def prependMarker (name : String) (r : DispatchLookupResources2Response) :
    DispatchLookupResources2Response :=
  { r with afterResponseCursor :=
      { r.afterResponseCursor with
        sections := (secondaryCursorMarker ++ name) :: r.afterResponseCursor.sections } }

/-- The terminal status of a stream whose producer ended with `err`. -/
def producerTerm (err : Option String) : Except DispatchErr Unit :=
  match err with
  | some e => .error (.peer e)
  | none => .ok ()

/-- Modelled from the spec (section 4.5 step 3): the default secondary is
the first name in the expression's result present in the `secondaries`
map. -/
def defaultSecondaryFor (secs : List (String × LRProducerSpec)) (names : List String) :
    Option (String × LRProducerSpec) :=
  names.findSome? (fun n => (lookupSecondary secs n).map (fun s => (n, s)))

/-- Outcome of a lookup-resources dispatch: the peer requests issued (label
`none` is the primary; each with the cursor the peer was sent), the
responses forwarded to the caller's stream, and the terminal status. -/
structure LROutcome where
  issued : List (Option String × Option Cursor)
  sent : List DispatchLookupResources2Response
  result : Except DispatchErr Unit
deriving DecidableEq, Repr

/-- Modelled from the spec: the streaming lookup-resources procedure of
section 4.5 (steps 2-8).  A cursor pinned by the secondary routing tag sends
the request, with the tag stripped, to that secondary only — failing with
unknown-secondary when the name is not configured — and any error from the
pinned peer is fatal.  Otherwise the primary and the default secondary race;
the secondary wins only if it emits a first response (arbiter
`secondaryFirst`), its responses get the routing tag prepended to their
cursors, and a secondary that errors before emitting anything silently
falls back to the primary's stream. -/
def dispatchLookupResources2 (w : LRWorld) (exprNames : List String)
    (req : DispatchLookupResources2Request) : LROutcome :=
  if req.metadata.depthRemaining = 0 then
    { issued := [], sent := [], result := .error .depthExceeded }
  else
    match pinnedOf req.optionalCursor with
    | some (cur, name) =>
      (match lookupSecondary w.secondaries name with
       | some s =>
         { issued := [(some name, some (strippedCursor cur))],
           sent := s.responses.map (prependMarker name),
           result := producerTerm s.err }
       | none =>
         { issued := [], sent := [], result := .error (.unknownSecondary name) })
    | none =>
      match defaultSecondaryFor w.secondaries exprNames with
      | none =>
        { issued := [(none, req.optionalCursor)],
          sent := w.primary.responses,
          result := producerTerm w.primary.err }
      | some (n, s) =>
        if s.responses ≠ [] ∧ w.secondaryFirst then
          { issued := [(none, req.optionalCursor), (some n, req.optionalCursor)],
            sent := s.responses.map (prependMarker n),
            result := producerTerm s.err }
        else
          { issued := [(none, req.optionalCursor), (some n, req.optionalCursor)],
            sent := w.primary.responses,
            result := producerTerm w.primary.err }

/-! ## The fake dispatch service of cluster_test.go (embedded from source) -/

/-- Embeds `fakeDispatchSvc.DispatchLookupResources2` (cluster_test.go lines
51-76), success path: a `resultCount` of zero is replaced by 2, then one
response per index with the index as resource id, the service's dispatch
count, and an empty version-1 cursor. -/
def fakeLR2Responses (resultCount dispatchCount : Nat) :
    List DispatchLookupResources2Response :=
  let rc := if resultCount = 0 then 2 else resultCount
  (List.range rc).map (fun i =>
    { resourceId := toString i,
      metadata := { dispatchCount := dispatchCount, cachedDispatchCount := 0, depthRequired := 0 },
      afterResponseCursor := { sections := [], dispatchVersion := 1 } })

/-- Embeds a `fakeDispatchSvc` as a lookup-resources producer: with
`errorOnLR2` set it errors before sending anything, otherwise it streams
`fakeLR2Responses` and terminates normally. -/
def fakeLR2 (resultCount dispatchCount : Nat) (errorOnLR2 : Option String) : LRProducerSpec :=
  match errorOnLR2 with
  | some e => { responses := [], err := some e }
  | none => { responses := fakeLR2Responses resultCount dispatchCount, err := none }

theorem stripMarker_append (X : String) :
    stripMarker (secondaryCursorMarker ++ X) = some X := by
  obtain ⟨d⟩ := X
  have happ : secondaryCursorMarker ++ String.mk d
      = String.mk (secondaryCursorMarker.data ++ d) := rfl
  rw [happ]
  unfold stripMarker
  have h3 : secondaryCursorMarker.data.length = 3 := rfl
  show (if (secondaryCursorMarker.data ++ d).take 3 = secondaryCursorMarker.data then _ else _) = _
  rw [← h3, List.take_left, List.drop_left, if_pos rfl]

/-- C1: a lookup-resources request whose cursor carries the secondary
routing tag for name X is answered by secondary X alone, with the tag
stripped from the cursor it receives; an error from X is fatal with no
fallback, an unknown X is an unknown-secondary error, and the primary is
never consulted — whatever the dispatch expression evaluates to. -/
theorem pinned_cursor_sticky
    (w : LRWorld) (exprNames : List String) (req : DispatchLookupResources2Request)
    (cur : Cursor) (X : String) (rest : List String)
    (hdepth : ¬req.metadata.depthRemaining = 0)
    (hcur : req.optionalCursor = some cur)
    (hsec : cur.sections = (secondaryCursorMarker ++ X) :: rest) :
    (∀ s, lookupSecondary w.secondaries X = some s →
       (dispatchLookupResources2 w exprNames req).issued
           = [(some X, some { sections := rest, dispatchVersion := cur.dispatchVersion })]
       ∧ (dispatchLookupResources2 w exprNames req).sent
           = s.responses.map (prependMarker X)
       ∧ ∀ e, s.err = some e →
           (dispatchLookupResources2 w exprNames req).result = .error (.peer e))
    ∧ (lookupSecondary w.secondaries X = none →
       (dispatchLookupResources2 w exprNames req).issued = []
       ∧ (dispatchLookupResources2 w exprNames req).result = .error (.unknownSecondary X))
    ∧ (∀ p ∈ (dispatchLookupResources2 w exprNames req).issued, p.1 ≠ none) := by
  obtain ⟨csecs, cver⟩ := cur
  have hcs : csecs = (secondaryCursorMarker ++ X) :: rest := hsec
  subst hcs
  have hpin : pinnedOf req.optionalCursor
      = some (⟨(secondaryCursorMarker ++ X) :: rest, cver⟩, X) := by
    rw [hcur]
    simp [pinnedOf, stripMarker_append]
  have htail : strippedCursor ⟨(secondaryCursorMarker ++ X) :: rest, cver⟩
      = { sections := rest, dispatchVersion := cver } := by
    simp [strippedCursor]
  refine ⟨fun s hs => ⟨?_, ?_, fun e he => ?_⟩, fun hn => ⟨?_, ?_⟩, ?_⟩
  · simp [dispatchLookupResources2, hdepth, hpin, hs, htail]
  · simp [dispatchLookupResources2, hdepth, hpin, hs]
  · simp [dispatchLookupResources2, hdepth, hpin, hs, producerTerm, he]
  · simp [dispatchLookupResources2, hdepth, hpin, hn]
  · simp [dispatchLookupResources2, hdepth, hpin, hn]
  · rcases hls : lookupSecondary w.secondaries X with _ | s <;>
      simp [dispatchLookupResources2, hdepth, hpin, hls]

/-- Request used by the lookup-resources witnesses, from the
`TestLRSecondaryDispatch` fixtures (no cursor; depth 50). -/
def lrBaseReq : DispatchLookupResources2Request :=
  { resourceRelation := { ns := "somenamespace", relation := "somerelation" },
    subjectRelation := { ns := "somenamespace", relation := "somerelation" },
    subjectIds := ["foo"],
    terminalSubject := { ns := "foo", objectId := "bar", relation := "..." },
    metadata := { atRevision := "", depthRemaining := 50 },
    optionalCursor := none }

/-- The secondaries map of `TestLRSecondaryDispatch`: secondary, tertiary
and an always-erroring peer. -/
def lrSecondaries : List (String × LRProducerSpec) :=
  [("secondary", fakeLR2 0 2 none),
   ("tertiary", fakeLR2 0 3 none),
   ("error", fakeLR2 0 4 (some "error"))]

/-- The pinned-cursor world: slow primary, the three secondaries above. -/
def lrPinnedWorld : LRWorld :=
  { primary := fakeLR2 0 1 none, secondaries := lrSecondaries, secondaryFirst := false }

theorem pinned_cursor_sticky_witness :
    ((dispatchLookupResources2 lrPinnedWorld ["secondary"]
        { lrBaseReq with optionalCursor := some { sections := ["$s:tertiary"], dispatchVersion := 1 } }).issued
      = [(some "tertiary", some { sections := [], dispatchVersion := 1 })]
    ∧ (dispatchLookupResources2 lrPinnedWorld ["secondary"]
        { lrBaseReq with optionalCursor := some { sections := ["$s:tertiary"], dispatchVersion := 1 } }).sent
      = (fakeLR2 0 3 none).responses.map (prependMarker "tertiary"))
    ∧ ((dispatchLookupResources2 lrPinnedWorld ["error"]
        { lrBaseReq with optionalCursor := some { sections := ["$s:unknown"], dispatchVersion := 1 } }).issued = []
    ∧ (dispatchLookupResources2 lrPinnedWorld ["error"]
        { lrBaseReq with optionalCursor := some { sections := ["$s:unknown"], dispatchVersion := 1 } }).result
      = .error (.unknownSecondary "unknown")) := by
  have hknown := pinned_cursor_sticky lrPinnedWorld ["secondary"]
    { lrBaseReq with optionalCursor := some { sections := ["$s:tertiary"], dispatchVersion := 1 } }
    { sections := ["$s:tertiary"], dispatchVersion := 1 } "tertiary" []
    (by decide) rfl (by decide)
  have hunknown := pinned_cursor_sticky lrPinnedWorld ["error"]
    { lrBaseReq with optionalCursor := some { sections := ["$s:unknown"], dispatchVersion := 1 } }
    { sections := ["$s:unknown"], dispatchVersion := 1 } "unknown" []
    (by decide) rfl (by decide)
  obtain ⟨h1, h2, _⟩ := hknown.1 (fakeLR2 0 3 none) (by decide)
  obtain ⟨h3, h4⟩ := hunknown.2.1 (by decide)
  exact ⟨⟨h1, h2⟩, ⟨h3, h4⟩⟩

/-- C2: with no pinned cursor, a default secondary that errors before
emitting any response is silently absorbed: the operation succeeds with the
primary's stream forwarded verbatim, both peers having been started in
parallel. -/
theorem lr_fallback_to_primary
    (w : LRWorld) (exprNames : List String) (req : DispatchLookupResources2Request)
    (n : String) (s : LRProducerSpec) (e : String)
    (hdepth : ¬req.metadata.depthRemaining = 0)
    (hnopin : pinnedOf req.optionalCursor = none)
    (hdef : defaultSecondaryFor w.secondaries exprNames = some (n, s))
    (hempty : s.responses = [])
    (herr : s.err = some e)
    (hp : w.primary.err = none) :
    (dispatchLookupResources2 w exprNames req).result = .ok ()
    ∧ (dispatchLookupResources2 w exprNames req).sent = w.primary.responses
    ∧ (dispatchLookupResources2 w exprNames req).issued
        = [(none, req.optionalCursor), (some n, req.optionalCursor)] := by
  refine ⟨?_, ?_, ?_⟩ <;>
    simp [dispatchLookupResources2, hdepth, hnopin, hdef, hempty, hp, producerTerm]

/-- The fallback world of `TestLRDispatchFallbackToPrimary`: a primary
streaming ten results with dispatch count 1, and a secondary that fails
immediately with a transport error. -/
def lrFallbackWorld : LRWorld :=
  { primary := fakeLR2 10 1 none,
    secondaries := [("secondary", fakeLR2 0 2 (some "not available"))],
    secondaryFirst := true }

theorem lr_fallback_to_primary_witness :
    (dispatchLookupResources2 lrFallbackWorld ["secondary"] lrBaseReq).result = .ok ()
    ∧ (dispatchLookupResources2 lrFallbackWorld ["secondary"] lrBaseReq).sent.length = 10
    ∧ ((dispatchLookupResources2 lrFallbackWorld ["secondary"] lrBaseReq).sent.head?.map
        (fun r => (r.resourceId, r.metadata.dispatchCount))) = some ("0", 1) := by
  have h := lr_fallback_to_primary lrFallbackWorld ["secondary"] lrBaseReq
    "secondary" (fakeLR2 0 2 (some "not available")) "not available"
    (by decide) rfl (by decide) rfl rfl rfl
  refine ⟨h.1, ?_, ?_⟩ <;> rw [h.2.1] <;> decide

theorem minLatencyProducer_eq_none (l : List (Option String × CheckProducerSpec))
    (h : minLatencyProducer l = none) : l = [] := by
  cases l with
  | nil => rfl
  | cons a as =>
    rw [minLatencyProducer] at h
    split at h
    · simp at h
    · split at h <;> simp at h

theorem minLatencyProducer_mem_le (l : List (Option String × CheckProducerSpec))
    (q : Option String × CheckProducerSpec) (h : minLatencyProducer l = some q) :
    q ∈ l ∧ ∀ p ∈ l, q.2.latency ≤ p.2.latency := by
  induction l generalizing q with
  | nil => simp [minLatencyProducer] at h
  | cons a as ih =>
    rw [minLatencyProducer] at h
    split at h
    · rename_i hm
      simp only [Option.some.injEq] at h
      subst h
      have hnil : as = [] := minLatencyProducer_eq_none as hm
      subst hnil
      exact ⟨List.mem_singleton.mpr rfl, by simp⟩
    · rename_i q2 hm
      obtain ⟨hmem, hle⟩ := ih q2 hm
      split at h
      · rename_i hab
        simp only [Option.some.injEq] at h
        subst h
        refine ⟨List.mem_cons_self a as, fun p hp => ?_⟩
        rcases List.mem_cons.mp hp with hpa | hpas
        · subst hpa; exact le_refl _
        · exact le_trans hab (hle p hpas)
      · rename_i hab
        simp only [Option.some.injEq] at h
        subst h
        refine ⟨List.mem_cons_of_mem a hmem, fun p hp => ?_⟩
        rcases List.mem_cons.mp hp with hpa | hpas
        · subst hpa; exact le_of_lt (lt_of_not_le hab)
        · exact hle p hpas

/-- C3: when the expression names a configured secondary, the check
dispatcher starts the primary and every valid secondary in parallel; the
producer with a successful answer of least latency wins, its response (with
the dispatch-count adjustment) is returned, and every other started
producer is cancelled. -/
theorem check_hedging_race
    (w : CheckWorld) (exprNames : List String) (req : DispatchCheckRequest)
    (lbl : Option String) (spec : CheckProducerSpec)
    (hdepth : ¬req.metadata.depthRemaining = 0)
    (hwin : minLatencyProducer ((checkProducers w exprNames).filter
        (fun p => okWithin w.timeout p.2)) = some (lbl, spec)) :
    (dispatchCheck w exprNames req).primaryStarted = true
    ∧ (dispatchCheck w exprNames req).startedSecondaries
        = (validSecondaries w.secondaries exprNames).map (fun p => p.1)
    ∧ (∀ r, spec.result = .ok r →
        (dispatchCheck w exprNames req).result
          = .ok { r with metadata := adjustMetadataForDispatch r.metadata })
    ∧ (lbl, spec) ∈ (checkProducers w exprNames).filter (fun p => okWithin w.timeout p.2)
    ∧ (∀ p ∈ (checkProducers w exprNames).filter (fun p => okWithin w.timeout p.2),
        spec.latency ≤ p.2.latency)
    ∧ (dispatchCheck w exprNames req).cancelled
        = ((checkProducers w exprNames).map (fun p => p.1)).filter (fun l => l ≠ lbl) := by
  obtain ⟨hmem, hle⟩ := minLatencyProducer_mem_le _ _ hwin
  refine ⟨?_, ?_, fun r hr => ?_, hmem, fun p hp => hle p hp, ?_⟩
  · simp [dispatchCheck, hdepth, hwin]
  · simp [dispatchCheck, hdepth, hwin]
  · simp [dispatchCheck, hdepth, hwin, hr]
  · simp [dispatchCheck, hdepth, hwin]

/-- The check request of `TestCheckSecondaryDispatch`. -/
def checkBaseReq : DispatchCheckRequest :=
  { resourceRelation := { ns := "somenamespace", relation := "somerelation" },
    resourceIds := ["foo"],
    metadata := { atRevision := "", depthRemaining := 50 },
    subject := { ns := "foo", objectId := "bar", relation := "..." } }

/-- Scenario 3 of the spec's table: primary sleeps one second and answers
with dispatch count 1; the secondary answers immediately with dispatch
count 2; overall timeout 30 seconds. -/
def c3World : CheckWorld :=
  { timeout := 30000,
    primary := { latency := 1000, result := .ok { metadata := { dispatchCount := 1, cachedDispatchCount := 0, depthRequired := 0 } } },
    secondaries := [("secondary", { latency := 0, result := .ok { metadata := { dispatchCount := 2, cachedDispatchCount := 0, depthRequired := 0 } } })] }

theorem check_hedging_race_witness :
    (dispatchCheck c3World ["secondary"] checkBaseReq).result
      = .ok { metadata := { dispatchCount := 2, cachedDispatchCount := 0, depthRequired := 0 } }
    ∧ (dispatchCheck c3World ["secondary"] checkBaseReq).startedSecondaries = ["secondary"]
    ∧ (dispatchCheck c3World ["secondary"] checkBaseReq).cancelled = [none] := by
  have h := check_hedging_race c3World ["secondary"] checkBaseReq
    (some "secondary")
    { latency := 0, result := .ok { metadata := { dispatchCount := 2, cachedDispatchCount := 0, depthRequired := 0 } } }
    (by decide) (by decide)
  refine ⟨?_, ?_, ?_⟩
  · rw [h.2.2.1 _ rfl]; decide
  · rw [h.2.1]; decide
  · rw [h.2.2.2.2.2]; decide

/-- C4: under a configured overall timeout, a primary slower than the
timeout makes both the unary check and the streaming lookup-subjects fail
with an error containing "context deadline exceeded", while a primary
answering within the timeout yields success with a dispatch count of at
least one. -/
theorem dispatch_overall_timeout
    (w : CheckWorld) (lw : LSWorld)
    (req : DispatchCheckRequest) (lreq : DispatchLookupSubjectsRequest)
    (hd1 : ¬req.metadata.depthRemaining = 0)
    (hd2 : ¬lreq.metadata.depthRemaining = 0) :
    (w.timeout < w.primary.latency →
       (dispatchCheck w [] req).result
         = .error (.deadlineExceeded "context deadline exceeded"))
    ∧ (∀ r, w.primary.latency < w.timeout → w.primary.result = .ok r →
       (dispatchCheck w [] req).result
         = .ok { r with metadata := adjustMetadataForDispatch r.metadata }
       ∧ 1 ≤ (adjustMetadataForDispatch r.metadata).dispatchCount)
    ∧ (lw.timeout < lw.primary.latency →
       (dispatchLookupSubjects lw lreq).result
         = .error (.deadlineExceeded "context deadline exceeded"))
    ∧ (lw.primary.latency < lw.timeout →
       (dispatchLookupSubjects lw lreq).result = .ok ()
       ∧ ∀ resp ∈ (dispatchLookupSubjects lw lreq).sent,
           1 ≤ resp.metadata.dispatchCount) := by
  refine ⟨fun hslow => ?_, fun r hfast hok => ⟨?_, ?_⟩, fun hslow => ?_, fun hfast => ⟨?_, ?_⟩⟩
  · have hnl : ¬w.primary.latency < w.timeout := by omega
    have hempty : (checkProducers w []).filter (fun p => okWithin w.timeout p.2) = [] := by
      simp [checkProducers, validSecondaries, okWithin, hnl]
    simp [dispatchCheck, hd1, hempty, minLatencyProducer, hnl]
  · have hone : (checkProducers w []).filter (fun p => okWithin w.timeout p.2)
        = [(none, w.primary)] := by
      simp [checkProducers, validSecondaries, okWithin, hfast, producerOk, hok]
    simp [dispatchCheck, hd1, hone, minLatencyProducer, hok]
  · simp [adjustMetadataForDispatch]
  · have hnl : ¬lw.primary.latency < lw.timeout := by omega
    simp [dispatchLookupSubjects, hd2, hnl]
  · simp [dispatchLookupSubjects, hd2, hfast]
  · intro resp hresp
    simp [dispatchLookupSubjects, hd2, hfast] at hresp
    obtain ⟨r0, _, hr0⟩ := hresp
    rw [← hr0]
    simp [adjustMetadataForDispatch]

/-- The `TestDispatchTimeout` fixtures: a fake peer that reports dispatch
count 0 and sleeps 20 milliseconds, against timeouts of 10 and 100
milliseconds; the lookup-subjects request of the same test. -/
def lsBaseReq : DispatchLookupSubjectsRequest :=
  { resourceRelation := { ns := "sometype", relation := "somerel" },
    resourceIds := ["foo"],
    metadata := { atRevision := "", depthRemaining := 50 },
    subjectRelation := { ns := "sometype", relation := "somerel" } }

/-- The slow-world check configuration: timeout 10ms, primary sleeping 20ms. -/
def c4SlowWorld : CheckWorld :=
  { timeout := 10,
    primary := { latency := 20, result := .ok { metadata := { dispatchCount := 0, cachedDispatchCount := 0, depthRequired := 0 } } },
    secondaries := [] }

/-- The fast-world check configuration: timeout 100ms, primary sleeping 20ms. -/
def c4FastWorld : CheckWorld :=
  { timeout := 100,
    primary := { latency := 20, result := .ok { metadata := { dispatchCount := 0, cachedDispatchCount := 0, depthRequired := 0 } } },
    secondaries := [] }

theorem dispatch_overall_timeout_witness :
    (dispatchCheck c4SlowWorld [] checkBaseReq).result
      = .error (.deadlineExceeded "context deadline exceeded")
    ∧ (dispatchCheck c4FastWorld [] checkBaseReq).result
      = .ok { metadata := { dispatchCount := 1, cachedDispatchCount := 0, depthRequired := 0 } }
    ∧ (dispatchLookupSubjects { timeout := 10, primary := { latency := 20, responses := [{ metadata := { dispatchCount := 0, cachedDispatchCount := 0, depthRequired := 0 } }] } } lsBaseReq).result
      = .error (.deadlineExceeded "context deadline exceeded")
    ∧ (dispatchLookupSubjects { timeout := 100, primary := { latency := 20, responses := [{ metadata := { dispatchCount := 0, cachedDispatchCount := 0, depthRequired := 0 } }] } } lsBaseReq).sent
      = [{ metadata := { dispatchCount := 1, cachedDispatchCount := 0, depthRequired := 0 } }] := by
  have hslow := dispatch_overall_timeout c4SlowWorld
    { timeout := 10, primary := { latency := 20, responses := [{ metadata := { dispatchCount := 0, cachedDispatchCount := 0, depthRequired := 0 } }] } }
    checkBaseReq lsBaseReq (by decide) (by decide)
  have hfast := dispatch_overall_timeout c4FastWorld
    { timeout := 100, primary := { latency := 20, responses := [{ metadata := { dispatchCount := 0, cachedDispatchCount := 0, depthRequired := 0 } }] } }
    checkBaseReq lsBaseReq (by decide) (by decide)
  refine ⟨hslow.1 (by decide), ?_, hslow.2.2.1 (by decide), ?_⟩
  · rw [(hfast.2.1 _ (by decide) rfl).1]; decide
  · decide

/-- C5: a dispatch request arriving with zero depth remaining fails at once
with a depth-exceeded error, before any peer is consulted and with nothing
streamed, on every operation of the dispatcher. -/
theorem depth_zero_fails
    (w : CheckWorld) (exprNames : List String) (req : DispatchCheckRequest)
    (lw : LSWorld) (lreq : DispatchLookupSubjectsRequest)
    (vw : LRWorld) (rnames : List String) (rreq : DispatchLookupResources2Request)
    (h1 : req.metadata.depthRemaining = 0)
    (h2 : lreq.metadata.depthRemaining = 0)
    (h3 : rreq.metadata.depthRemaining = 0) :
    (dispatchCheck w exprNames req).result = .error .depthExceeded
    ∧ (dispatchCheck w exprNames req).primaryStarted = false
    ∧ (dispatchCheck w exprNames req).startedSecondaries = []
    ∧ (dispatchLookupSubjects lw lreq).result = .error .depthExceeded
    ∧ (dispatchLookupSubjects lw lreq).sent = []
    ∧ (dispatchLookupResources2 vw rnames rreq).result = .error .depthExceeded
    ∧ (dispatchLookupResources2 vw rnames rreq).sent = []
    ∧ (dispatchLookupResources2 vw rnames rreq).issued = [] := by
  refine ⟨?_, ?_, ?_, ?_, ?_, ?_, ?_, ?_⟩ <;>
    simp [dispatchCheck, dispatchLookupSubjects, dispatchLookupResources2, h1, h2, h3]

theorem depth_zero_fails_witness :
    (dispatchCheck c3World ["secondary"]
        { checkBaseReq with metadata := { atRevision := "", depthRemaining := 0 } }).result
      = .error .depthExceeded
    ∧ (dispatchLookupResources2 lrFallbackWorld ["secondary"]
        { lrBaseReq with metadata := { atRevision := "", depthRemaining := 0 } }).sent = [] := by
  have h := depth_zero_fails c3World ["secondary"]
    { checkBaseReq with metadata := { atRevision := "", depthRemaining := 0 } }
    { timeout := 10, primary := { latency := 20, responses := [] } } { lsBaseReq with metadata := { atRevision := "", depthRemaining := 0 } }
    lrFallbackWorld ["secondary"]
    { lrBaseReq with metadata := { atRevision := "", depthRemaining := 0 } }
    rfl rfl rfl
  exact ⟨h.1, h.2.2.2.2.2.2.1⟩

/-- C7: expression names absent from the secondaries map are dropped with no
error; when none remains the check is primary-only — no secondary is
started and the primary's response is returned, carrying the primary's own
dispatch count. -/
theorem check_unknown_secondaries_ignored
    (w : CheckWorld) (exprNames : List String) (req : DispatchCheckRequest)
    (r : DispatchCheckResponse)
    (hdepth : ¬req.metadata.depthRemaining = 0)
    (hinv : validSecondaries w.secondaries exprNames = [])
    (hlat : w.primary.latency < w.timeout)
    (hres : w.primary.result = .ok r)
    (hcount : 1 ≤ r.metadata.dispatchCount) :
    (dispatchCheck w exprNames req).startedSecondaries = []
    ∧ (dispatchCheck w exprNames req).result
        = .ok { r with metadata := adjustMetadataForDispatch r.metadata }
    ∧ (adjustMetadataForDispatch r.metadata).dispatchCount = r.metadata.dispatchCount := by
  have hone : (checkProducers w exprNames).filter (fun p => okWithin w.timeout p.2)
      = [(none, w.primary)] := by
    simp [checkProducers, hinv, okWithin, hlat, producerOk, hres]
  refine ⟨?_, ?_, ?_⟩
  · simp [dispatchCheck, hdepth, hone, minLatencyProducer, hinv]
  · simp [dispatchCheck, hdepth, hone, minLatencyProducer, hres]
  · simp [adjustMetadataForDispatch]
    omega

/-- The no-multidispatch world of `TestCheckSecondaryDispatch`: expression
names only an unconfigured secondary, the primary reports dispatch count 1. -/
def c7World : CheckWorld :=
  { timeout := 30000,
    primary := { latency := 1000, result := .ok { metadata := { dispatchCount := 1, cachedDispatchCount := 0, depthRequired := 0 } } },
    secondaries := [("secondary", { latency := 0, result := .ok { metadata := { dispatchCount := 2, cachedDispatchCount := 0, depthRequired := 0 } } })] }

theorem check_unknown_secondaries_ignored_witness :
    (dispatchCheck c7World ["notconfigured"] checkBaseReq).startedSecondaries = []
    ∧ (dispatchCheck c7World ["notconfigured"] checkBaseReq).result
      = .ok { metadata := { dispatchCount := 1, cachedDispatchCount := 0, depthRequired := 0 } } := by
  have h := check_unknown_secondaries_ignored c7World ["notconfigured"] checkBaseReq
    { metadata := { dispatchCount := 1, cachedDispatchCount := 0, depthRequired := 0 } }
    (by decide) (by decide) (by decide) rfl (by decide)
  exact ⟨h.1, by rw [h.2.1]; decide⟩

/-! ## Local dispatcher: DispatchLookupResources (spec section 4.4)

The local evaluator (`internal/dispatch/graph`) is exercised by the
cursor-stability test but its source is not in this tree; it is modelled
from the spec as a pure function of the request, with the datastore
abstracted as the ordered list of resource ids reachable at a revision. -/

/-- Embeds `dispatch.v1.DispatchLookupResourcesRequest` (the fields the
cursor-stability test sets). -/
structure DispatchLookupResourcesRequest where
  objectRelation : RelationReference
  subject : ObjectAndRelation
  metadata : ResolverMeta
  optionalLimit : Nat
  optionalCursor : Option Cursor
deriving DecidableEq, Repr

/-- Embeds `dispatch.v1.DispatchLookupResourcesResponse`. -/
structure DispatchLookupResourcesResponse where
  resourceId : String
  metadata : ResponseMeta
  afterResponseCursor : Cursor
deriving DecidableEq, Repr

/-- The evaluator progress encoded in an incoming cursor: the index of the
next resource to emit (an empty cursor is the start-of-stream marker of
spec section 4.6). -/
def cursorStart : Option Cursor → Nat
  | none => 0
  | some c => ((c.sections.head?).bind (fun s => s.toNat?)).getD 0

/-- Modelled from the spec: the local lookup-resources evaluation as a
deterministic function of the request (spec section 8, invariant 3: the
cursor of response k depends only on the operation's deterministic state).
`ds` abstracts the datastore: the ordered resource ids reachable for an
object relation and subject at a revision.  Responses resume at the
cursor's index, are capped by the limit when it is non-zero, and each
carries a cursor encoding the index after it. -/
def lookupResourcesLocal (ds : String → RelationReference → ObjectAndRelation → List String)
    (req : DispatchLookupResourcesRequest) : List DispatchLookupResourcesResponse :=
  let all := ds req.metadata.atRevision req.objectRelation req.subject
  let start := cursorStart req.optionalCursor
  let remaining := all.length - start
  let count := if req.optionalLimit = 0 then remaining else min req.optionalLimit remaining
  (List.range count).map (fun k =>
    { resourceId := (all.get? (start + k)).getD "",
      metadata := { dispatchCount := 1, cachedDispatchCount := 0, depthRequired := 1 },
      afterResponseCursor := { sections := [toString (start + k + 1)], dispatchVersion := 1 } })

/-- The cursor attached to the k-th response of a run. -/
def cursorAt (rs : List DispatchLookupResourcesResponse) (k : Nat) : Option Cursor :=
  (rs.get? k).map (fun r => r.afterResponseCursor)

/-- C6: two runs of the same lookup-resources request yield identical
cursors at every position; moreover the k-th cursor of a cursorless run is
determined by the evaluation prefix alone — two runs differing only in
their (non-zero) limits agree on every position both reach. -/
theorem lr_cursor_deterministic
    (ds : String → RelationReference → ObjectAndRelation → List String)
    (r1 r2 : DispatchLookupResourcesRequest) (k : Nat)
    (heq : r1 = r2) :
    cursorAt (lookupResourcesLocal ds r1) k = cursorAt (lookupResourcesLocal ds r2) k
    ∧ ∀ (L1 L2 : Nat), ¬L1 = 0 → ¬L2 = 0 →
        k < min L1 ((ds r1.metadata.atRevision r1.objectRelation r1.subject).length
            - cursorStart r1.optionalCursor) →
        k < min L2 ((ds r1.metadata.atRevision r1.objectRelation r1.subject).length
            - cursorStart r1.optionalCursor) →
        cursorAt (lookupResourcesLocal ds { r1 with optionalLimit := L1 }) k
          = cursorAt (lookupResourcesLocal ds { r1 with optionalLimit := L2 }) k := by
  subst heq
  refine ⟨rfl, fun L1 L2 h1 h2 hk1 hk2 => ?_⟩
  unfold cursorAt lookupResourcesLocal
  simp only [h1, h2, if_false, List.get?_map]
  rw [List.get?_range hk1, List.get?_range hk2]

/-- A concrete datastore for the witness: the documents viewable by user
owner in the cursor-stability fixtures. -/
def c6Datastore : String → RelationReference → ObjectAndRelation → List String :=
  fun _ _ _ => ["companyplan", "masterplan", "ownerplan"]

/-- The cursor-stability request: document#view for user owner, limit 2. -/
def c6Req : DispatchLookupResourcesRequest :=
  { objectRelation := { ns := "document", relation := "view" },
    subject := { ns := "user", objectId := "owner", relation := "..." },
    metadata := { atRevision := "rev1", depthRemaining := 50 },
    optionalLimit := 2,
    optionalCursor := none }

theorem lr_cursor_deterministic_witness :
    cursorAt (lookupResourcesLocal c6Datastore c6Req) 1
      = cursorAt (lookupResourcesLocal c6Datastore c6Req) 1
    ∧ cursorAt (lookupResourcesLocal c6Datastore c6Req) 1
      = some { sections := ["2"], dispatchVersion := 1 } := by
  have h := lr_cursor_deterministic c6Datastore c6Req c6Req 1 rfl
  exact ⟨h.1, by decide⟩

/-! ## Dispatch expression language (spec sections 4.2 and 6) -/

/-- Tokens of the expression grammar. -/
inductive ExprToken
  | lbrack
  | rbrack
  | comma
  | questionT
  | colonT
  | dotT
  | eqT
  | neT
  | identT (s : String)
  | strT (s : String)
deriving DecidableEq, Repr

/-- The single-quote character delimiting STRING literals. -/
def squote : Char := Char.ofNat 39

/-- Characters allowed in identifiers (field names, the `request` head). -/
def isIdentChar (c : Char) : Bool := c.isAlpha || c = '_'

/-- Fuel-driven scanner over the source characters; the fuel only bounds
recursion (each step consumes at least one character). -/
def tokenizeAux : Nat → List Char → Option (List ExprToken)
  | 0, _ => none
  | _, [] => some []
  | fuel + 1, c :: rest =>
    if c = ' ' then tokenizeAux fuel rest
    else if c = '[' then (tokenizeAux fuel rest).map (fun ts => .lbrack :: ts)
    else if c = ']' then (tokenizeAux fuel rest).map (fun ts => .rbrack :: ts)
    else if c = ',' then (tokenizeAux fuel rest).map (fun ts => .comma :: ts)
    else if c = '?' then (tokenizeAux fuel rest).map (fun ts => .questionT :: ts)
    else if c = ':' then (tokenizeAux fuel rest).map (fun ts => .colonT :: ts)
    else if c = '.' then (tokenizeAux fuel rest).map (fun ts => .dotT :: ts)
    else if c = '=' then
      match rest with
      | d :: rest2 => if d = '=' then (tokenizeAux fuel rest2).map (fun ts => .eqT :: ts) else none
      | [] => none
    else if c = '!' then
      match rest with
      | d :: rest2 => if d = '=' then (tokenizeAux fuel rest2).map (fun ts => .neT :: ts) else none
      | [] => none
    else if c = squote then
      match rest.dropWhile (fun d => ¬d = squote) with
      | d :: rest2 =>
        if d = squote then
          (tokenizeAux fuel rest2).map
            (fun ts => .strT (String.mk (rest.takeWhile (fun e => ¬e = squote))) :: ts)
        else none
      | [] => none
    else if isIdentChar c then
      (tokenizeAux fuel ((c :: rest).dropWhile isIdentChar)).map
        (fun ts => .identT (String.mk ((c :: rest).takeWhile isIdentChar)) :: ts)
    else none

/-- Scan an expression source into tokens. -/
def tokenize (s : String) : Option (List ExprToken) :=
  tokenizeAux (s.length + 1) s.data

/-- A compiled dispatch expression: a literal name list, or a conditional
comparing a request field with a string and choosing between two lists. -/
inductive DispatchExpr
  | listE (names : List String)
  | condE (path : List String) (isEq : Bool) (value : String)
      (thenNames elseNames : List String)
deriving DecidableEq, Repr

/-- After the opening item of a list: either the closing bracket or a comma
followed by one more STRING. -/
def parseListRest : List ExprToken → Option (List String × List ExprToken)
  | .rbrack :: rest => some ([], rest)
  | .comma :: .strT s :: rest =>
    (parseListRest rest).map (fun pr => (s :: pr.1, pr.2))
  | _ => none

/-- Parse a literal list `[ (STRING (, STRING)*)? ]`, returning the names
and the unconsumed tokens. -/
def parseList : List ExprToken → Option (List String × List ExprToken)
  | .lbrack :: .rbrack :: rest => some ([], rest)
  | .lbrack :: .strT s :: rest =>
    (parseListRest rest).map (fun pr => (s :: pr.1, pr.2))
  | _ => none

/-- Greedily parse the `(. IDENT)+` tail of a field path. -/
def parsePathRest : List ExprToken → List String × List ExprToken
  | .dotT :: .identT s :: rest =>
    let pr := parsePathRest rest
    (s :: pr.1, pr.2)
  | toks => ([], toks)

/-- Parse a conditional `request(.IDENT)+ (==|!=) STRING ? list : list`
spanning the whole token stream. -/
def parseCond (toks : List ExprToken) : Option DispatchExpr :=
  match toks with
  | .identT r :: rest =>
    if r = "request" then
      match parsePathRest rest with
      | ([], _) => none
      | (path, rest2) =>
        match rest2 with
        | op :: .strT v :: .questionT :: rest3 =>
          if op = ExprToken.eqT ∨ op = ExprToken.neT then
            match parseList rest3 with
            | some (thenNames, .colonT :: rest4) =>
              match parseList rest4 with
              | some (elseNames, []) =>
                some (.condE path (decide (op = ExprToken.eqT)) v thenNames elseNames)
              | _ => none
            | _ => none
          else none
        | _ => none
    else none
  | _ => none

/-- The field paths each operation kind's request shape admits; an
expression naming any other path is rejected at parse time (spec section
4.2: evaluator errors surface at parse time). -/
def allowedPaths (kind : String) : List (List String) :=
  if kind = "check" then
    [["resource_relation", "namespace"], ["resource_relation", "relation"],
     ["subject", "namespace"], ["subject", "object_id"], ["subject", "relation"]]
  else if kind = "lookupresources" ∨ kind = "lookupsubjects" then
    [["resource_relation", "namespace"], ["resource_relation", "relation"],
     ["subject_relation", "namespace"], ["subject_relation", "relation"]]
  else if kind = "expand" then
    [["resource_relation", "namespace"], ["resource_relation", "relation"]]
  else []

/-- Modelled from the spec: `ParseDispatchExpression` (spec sections 4.2 and
6): scan, then parse either a literal list or a conditional typed against
the kind's request shape. -/
def ParseDispatchExpression (kind : String) (source : String) : Option DispatchExpr :=
  match tokenize source with
  | none => none
  | some toks =>
    match parseList toks with
    | some (names, []) => some (.listE names)
    | _ =>
      match parseCond toks with
      | some (.condE path isEq v thenNames elseNames) =>
        if (allowedPaths kind).contains path then
          some (.condE path isEq v thenNames elseNames)
        else none
      | _ => none

/-- Resolve a parsed field path against a check request. -/
def resolveCheckField (req : DispatchCheckRequest) (path : List String) : Option String :=
  if path = ["resource_relation", "namespace"] then some req.resourceRelation.ns
  else if path = ["resource_relation", "relation"] then some req.resourceRelation.relation
  else if path = ["subject", "namespace"] then some req.subject.ns
  else if path = ["subject", "object_id"] then some req.subject.objectId
  else if path = ["subject", "relation"] then some req.subject.relation
  else none

/-- Modelled from the spec: pure, total evaluation of a compiled expression
on a check request, returning the secondary names to hedge against. -/
def evaluateCheckExpr (e : DispatchExpr) (req : DispatchCheckRequest) : List String :=
  match e with
  | .listE names => names
  | .condE path isEq v thenNames elseNames =>
    match resolveCheckField req path with
    | some fv =>
      if isEq then (if fv = v then thenNames else elseNames)
      else (if ¬fv = v then thenNames else elseNames)
    | none => []

/-- The quoted conditional of scenario 5, assembled around explicit
single-quote characters. -/
def sqs : String := String.mk [squote]

/-- Source text of the scenario-5 expression. -/
def c8Source : String :=
  "request.resource_relation.namespace == " ++ sqs ++ "somenamespace" ++ sqs
    ++ " ? [" ++ sqs ++ "secondary" ++ sqs ++ "] : []"

/-- The compiled form of the scenario-5 expression. -/
def c8Expr : DispatchExpr :=
  .condE ["resource_relation", "namespace"] true "somenamespace" ["secondary"] []

/-- C8: the scenario-5 conditional parses for the check kind to the
expected compiled form; its (total, never-failing) evaluation returns the
secondary exactly when the request's resource-relation namespace matches;
and against a slow primary (count 1) with a fast configured secondary
(count 2) the hedged dispatch returns count 2 exactly in the matching
case. -/
theorem check_expr_conditional :
    ParseDispatchExpression "check" c8Source = some c8Expr
    ∧ (∀ req : DispatchCheckRequest,
        evaluateCheckExpr c8Expr req
          = if req.resourceRelation.ns = "somenamespace" then ["secondary"] else [])
    ∧ (∀ req : DispatchCheckRequest, ¬req.metadata.depthRemaining = 0 →
        ∃ resp, (dispatchCheck c3World (evaluateCheckExpr c8Expr req) req).result = .ok resp
          ∧ resp.metadata.dispatchCount
              = (if req.resourceRelation.ns = "somenamespace" then 2 else 1)) := by
  refine ⟨by decide, fun req => ?_, fun req hd => ?_⟩
  · simp [evaluateCheckExpr, c8Expr, resolveCheckField]
  · by_cases hns : req.resourceRelation.ns = "somenamespace"
    · have harg : evaluateCheckExpr c8Expr req = ["secondary"] := by
        simp [evaluateCheckExpr, c8Expr, resolveCheckField, hns]
      rw [harg]
      refine ⟨{ metadata := { dispatchCount := 2, cachedDispatchCount := 0, depthRequired := 0 } }, ?_, by simp [hns]⟩
      rw [dispatchCheck, if_neg hd]
      decide
    · have harg : evaluateCheckExpr c8Expr req = [] := by
        simp [evaluateCheckExpr, c8Expr, resolveCheckField, hns]
      rw [harg]
      refine ⟨{ metadata := { dispatchCount := 1, cachedDispatchCount := 0, depthRequired := 0 } }, ?_, by simp [hns]⟩
      rw [dispatchCheck, if_neg hd]
      decide

theorem check_expr_conditional_witness :
    (dispatchCheck c3World
        (evaluateCheckExpr c8Expr checkBaseReq) checkBaseReq).result
      = .ok { metadata := { dispatchCount := 2, cachedDispatchCount := 0, depthRequired := 0 } }
    ∧ (dispatchCheck c3World
        (evaluateCheckExpr c8Expr
          { checkBaseReq with resourceRelation := { ns := "someothernamespace", relation := "somerelation" } })
        { checkBaseReq with resourceRelation := { ns := "someothernamespace", relation := "somerelation" } }).result
      = .ok { metadata := { dispatchCount := 1, cachedDispatchCount := 0, depthRequired := 0 } } := by
  obtain ⟨r1, hr1, hc1⟩ := check_expr_conditional.2.2 checkBaseReq (by decide)
  have hcount : r1.metadata.dispatchCount = 2 := by
    rw [hc1]
    decide
  refine ⟨?_, by decide⟩
  have heval : (dispatchCheck c3World (evaluateCheckExpr c8Expr checkBaseReq) checkBaseReq).result
      = .ok { metadata := { dispatchCount := 2, cachedDispatchCount := 0, depthRequired := 0 } } := by
    decide
  exact heval

end SpiceDB
